import Mathlib

/-!
Shallow embedding of the data-agent workflow core of the `dataagent`
repository, together with theorems settling the frozen claims about it.

The embedded code comes from:
* `src/api/src/entities/data_agent/tools/sql.py` (`execute_sql`)
* `src/api/src/entities/data_agent/tools/search.py` (`search_cached_queries`)
* `src/api/src/entities/chat_agent/executor.py` (`ChatAgentExecutor`)
* `src/api/src/entities/data_agent/executor.py` (`NL2SQLAgentExecutor`)
* `src/api/src/entities/workflow/builder.py` (`build_data_agent_workflow`)
* `src/api/src/entities/models.py` (`NL2SQLResponse`)

Third-party boundaries (the ODBC driver, Azure AI Search, the hosted agent
runtime, Python's `json`/`str` formatting) are modelled as explicit
environment parameters; everything the repository itself does is translated
directly from the Python source.
-/

namespace DataAgent

/-! ## Python value model

Database cell values, as seen by the row-conversion loop of `execute_sql`
(sql.py lines 119-131).  `other s` stands for any value that is not
`None`/`int`/`float`/`str`/`bool`; `s` is its Python `str()` form. -/

inductive PyValue : Type where
  | none : PyValue
  | int (i : Int) : PyValue
  | float (x : Rat) : PyValue
  | str (s : String) : PyValue
  | bool (b : Bool) : PyValue
  | other (s : String) : PyValue
deriving DecidableEq, Repr, Inhabited

/-- A value is JSON-safe when it is one of `None`, `int`, `float`, `str`,
`bool` — i.e. anything but `other`. -/
def PyValue.isJsonSafe : PyValue → Bool
  | .other _ => false
  | _ => true

/-- A row dictionary: column name to value, in column order. -/
abbrev Row : Type := List (String × PyValue)

/-! ## `execute_sql` (sql.py lines 34-151) -/

/-- Values appearing in the dictionary returned by `execute_sql`. -/
inductive RVal : Type where
  | bool (b : Bool) : RVal
  | str (s : String) : RVal
  | noneVal : RVal
  | strList (l : List String) : RVal
  | rowList (l : List Row) : RVal
  | nat (n : Nat) : RVal
deriving DecidableEq, Repr, Inhabited

/-- The dictionary returned by `execute_sql`, as an ordered key/value list
mirroring the Python dict literals. -/
abbrev SqlDict : Type := List (String × RVal)

/-- First-match association lookup, as Python dict indexing on these
literal dicts (which never repeat a key). -/
def lookupKey : List (String × RVal) → String → Option RVal
  | [], _ => Option.none
  | (k, v) :: rest, key => if k = key then some v else lookupKey rest key

/-- Python `str.strip()` whitespace, on ASCII: space, tab, newline,
carriage return, vertical tab, form feed. -/
def pyIsSpace (c : Char) : Bool :=
  c = ' ' || c = '\t' || c = '\n' || c = '\r' || c = '\x0b' || c = '\x0c'

/-- Python `str.upper()` on one ASCII character. -/
def pyToUpperChar (c : Char) : Char :=
  if 'a' ≤ c ∧ c ≤ 'z' then Char.ofNat (c.toNat - 32) else c

/-- Python `str.strip()`: drop leading and trailing whitespace. -/
def stripChars (l : List Char) : List Char :=
  ((l.dropWhile pyIsSpace).reverse.dropWhile pyIsSpace).reverse

/-- Python `str.upper()`. -/
def upperChars (l : List Char) : List Char :=
  l.map pyToUpperChar

/-- Whether `pre` is a prefix of `l` (first argument the string, second
the candidate prefix), as Python `str.startswith`. -/
def startsWithChars : List Char → List Char → Bool
  | _, [] => true
  | [], _ :: _ => false
  | c :: cs, p :: ps => c = p && startsWithChars cs ps

/-- Python `needle in hay`: contiguous substring containment. -/
def containsChars (needle : List Char) : List Char → Bool
  | [] => startsWithChars [] needle
  | c :: rest => startsWithChars (c :: rest) needle || containsChars needle rest

/-- sql.py line 67: the blocked-keyword list, in source order. -/
def dangerous_keywords : List String :=
  ["INSERT", "UPDATE", "DELETE", "DROP", "ALTER", "CREATE", "TRUNCATE", "EXEC", "EXECUTE"]

/-- sql.py lines 68-69: the first dangerous keyword occurring in the
uppercased query, if any. -/
def findForbidden (query_upper : List Char) : Option String :=
  dangerous_keywords.find? (fun k => containsChars k.data query_upper)

/-- sql.py lines 124-130: conversion of one cell to a JSON-safe value.
`None`, `int`, `float`, `str`, `bool` pass through; anything else becomes
its `str()` form. -/
def convertValue : PyValue → PyValue
  | .none => .none
  | .int i => .int i
  | .float x => .float x
  | .str s => .str s
  | .bool b => .bool b
  | .other s => .str s

/-- sql.py lines 121-131: build one row dict, pairing each column with the
positional cell `row[i]`.  `Option.none` models the `IndexError` raised when
the raw row has fewer cells than there are columns. -/
def buildRow : List String → List PyValue → Option Row
  | [], _ => some []
  | _ :: _, [] => Option.none
  | c :: cs, v :: vs => (buildRow cs vs).map (fun rest => (c, convertValue v) :: rest)

/-- sql.py lines 119-131: the row-conversion loop over all fetched rows. -/
def buildRows (columns : List String) : List (List PyValue) → Option (List Row)
  | [] => some []
  | r :: rs =>
    match buildRow columns r, buildRows columns rs with
    | some row, some rows => some (row :: rows)
    | _, _ => Option.none

/-- Environment of `execute_sql`: the `AZURE_SQL_SERVER` environment
variable (`os.getenv` default `""`), and the database interaction
(`_get_azure_sql_token`, `aioodbc.connect`, `cursor.execute`,
`cursor.fetchall`), which either raises an exception with `str()` form `e`
or yields the column names and raw rows. -/
structure SqlEnv : Type where
  azure_sql_server : String
  db : String → Except String (List String × List (List PyValue))

/-- The failure dictionary shared by the validation, configuration and
`except` branches of `execute_sql` (sql.py lines 58-64, 70-76, 84-90,
145-151): all have keys in the same order and empty data. -/
def sqlFailure (msg : String) : SqlDict :=
  [("success", .bool false), ("error", .str msg),
   ("columns", .strList []), ("rows", .rowList []), ("row_count", .nat 0)]

/-- sql.py lines 78-151: the `try` block of `execute_sql`, reached only
after both read-only checks pass.  An exception anywhere inside (token
acquisition, connection, execution, or an `IndexError` in the conversion
loop) is caught by `except Exception` and stringified. -/
def runQuery (env : SqlEnv) (query : String) : SqlDict :=
  if env.azure_sql_server = "" then
    sqlFailure "AZURE_SQL_SERVER environment variable is required"
  else
    match env.db query with
    | .error e => sqlFailure e
    | .ok (columns, raw_rows) =>
      match buildRows columns raw_rows with
      | Option.none => sqlFailure "tuple index out of range"
      | some rows =>
        [("success", .bool true), ("columns", .strList columns),
         ("rows", .rowList rows), ("row_count", .nat rows.length),
         ("error", .noneVal)]

/-- sql.py lines 34-151: `execute_sql`.  The query is stripped and
uppercased, must start with `SELECT`, and must contain none of the
dangerous keywords; only then does the `try` block run. -/
def execute_sql (env : SqlEnv) (query : String) : SqlDict :=
  let query_upper := upperChars (stripChars query.data)
  if ¬ startsWithChars query_upper "SELECT".data then
    sqlFailure "Only SELECT queries are allowed. Query must start with SELECT."
  else
    match findForbidden query_upper with
    | some keyword =>
      sqlFailure ("Query contains forbidden keyword: " ++ keyword ++
        ". Only read-only SELECT queries are allowed.")
    | Option.none => runQuery env query

/-- Both read-only checks of sql.py lines 56-76: the stripped, uppercased
query starts with `SELECT` and contains no dangerous keyword. -/
def passes_checks (query : String) : Bool :=
  let query_upper := upperChars (stripChars query.data)
  startsWithChars query_upper "SELECT".data && (findForbidden query_upper).isNone

/-! ## `search_cached_queries` (search.py lines 125-188) -/

/-- One match returned by `AzureSearchClient.hybrid_search` with
`select=["question", "query", "reasoning"]` (search.py lines 150-154):
the three selected fields plus the `@search.score`.  Scores are modelled
as rationals. -/
structure SearchMatch : Type where
  question : String
  query : String
  reasoning : String
  score : Rat
deriving DecidableEq, Repr

/-- search.py line 19: `CONFIDENCE_THRESHOLD` is the value of the
`QUERY_CONFIDENCE_THRESHOLD` environment variable parsed as a number,
defaulting to `0.75` when the variable is unset. -/
def CONFIDENCE_THRESHOLD (env_value : Option Rat) : Rat :=
  env_value.getD (3 / 4)

/-- The dictionary returned by `search_cached_queries`.  The three
branches of the source return different key sets; a field holding
`Option.none` (for `message`, `threshold`, `error`) models the key being
absent from the returned dict. -/
structure SearchResult : Type where
  has_high_confidence_match : Bool
  best_match : Option SearchMatch
  all_matches : List SearchMatch
  message : Option String
  threshold : Option Rat
  error : Option String
deriving DecidableEq, Repr

/-- search.py lines 125-188: `search_cached_queries`.  `searchOutcome` is
the result of the `async with AzureSearchClient(...)` block and the
`hybrid_search` call: `.error e` models any exception raised inside the
`try` (missing endpoint, embedding failure, search failure) with `str()`
form `e`, and is caught by the `except Exception` clause. -/
def search_cached_queries (threshold : Rat)
    (searchOutcome : Except String (List SearchMatch)) : SearchResult :=
  match searchOutcome with
  | .error e =>
    { has_high_confidence_match := false, best_match := Option.none,
      all_matches := [], message := Option.none, threshold := Option.none,
      error := some e }
  | .ok results =>
    match results with
    | [] =>
      { has_high_confidence_match := false, best_match := Option.none,
        all_matches := [], message := some "No cached queries found",
        threshold := Option.none, error := Option.none }
    | best_match :: _ =>
      let has_high_confidence := decide (threshold ≤ best_match.score)
      { has_high_confidence_match := has_high_confidence,
        best_match := if has_high_confidence then some best_match else Option.none,
        all_matches := results, message := Option.none,
        threshold := some threshold, error := Option.none }

/-! ## Workflow shared state and executors

Both executor files use the same shared-state key and contain identical
`_get_or_create_thread` / `_store_thread_id` methods (chat_agent/executor.py
lines 79-108, data_agent/executor.py lines 80-109); each is embedded once
per executor, in its own namespace. -/

/-- chat_agent/executor.py line 35 and data_agent/executor.py line 35. -/
def FOUNDRY_THREAD_ID_KEY : String := "foundry_thread_id"

/-- Workflow shared state: a key/value store.  Only string values (thread
identifiers) are ever written by this code. -/
abbrev SharedState : Type := List (String × String)

/-- Embeds `ctx.get_shared_state(key)`: `Option.none` models the `KeyError`
raised when the key is absent. -/
def get_shared_state : SharedState → String → Option String
  | [], _ => Option.none
  | (k, v) :: rest, key => if k = key then some v else get_shared_state rest key

/-- Embeds `ctx.set_shared_state(key, value)`: the new binding shadows any
older one. -/
def set_shared_state (st : SharedState) (key value : String) : SharedState :=
  (key, value) :: st

/-- One shared-state operation performed by a handler, recorded for the
access trace. -/
inductive StateAccess : Type where
  | read (key : String) : StateAccess
  | write (key : String) (value : String) : StateAccess
deriving DecidableEq, Repr

/-- The key an access touches. -/
def StateAccess.key : StateAccess → String
  | .read k => k
  | .write k _ => k

/-- Whether an access is a write. -/
def StateAccess.isWrite : StateAccess → Bool
  | .read _ => false
  | .write _ _ => true

/-- Embeds `agent_framework.AgentThread`, as used here: only its
`service_thread_id` matters.  `Option.none` models Python `None`. -/
structure AgentThread : Type where
  service_thread_id : Option String
deriving DecidableEq, Repr

/-- A Python exception: its class and its `str()` form. -/
structure PyExc : Type where
  cls : String
  msg : String
deriving DecidableEq, Repr

/-- models.py lines 10-55: the `NL2SQLResponse` pydantic model with its
field defaults. -/
structure NL2SQLResponse : Type where
  sql_query : String := ""
  sql_response : List Row := []
  confidence_score : Rat := 0
  columns : List String := []
  row_count : Nat := 0
  used_cached_query : Bool := false
  error : Option String := Option.none
deriving DecidableEq, Repr

/-- Outcome of running one handler: the shared state afterwards, the trace
of shared-state accesses in order, the message sent downstream via
`ctx.send_message` / `ctx.yield_output` (if any), and the exception the
handler propagated (if any). -/
structure HandlerOutcome (σ : Type) : Type where
  state : SharedState
  accesses : List StateAccess
  sent : Option σ
  raised : Option PyExc
deriving Repr

namespace NL2SQLAgentExecutor

/-- data_agent/executor.py lines 80-97: `_get_or_create_thread`.  Reads
`FOUNDRY_THREAD_ID_KEY`; a stored truthy (non-empty) identifier yields
`get_new_thread(service_thread_id=thread_id)`, otherwise (`KeyError` or
falsy value) a fresh `get_new_thread()`. -/
def get_or_create_thread (st : SharedState) : AgentThread × List StateAccess :=
  let acc := [StateAccess.read FOUNDRY_THREAD_ID_KEY]
  match get_shared_state st FOUNDRY_THREAD_ID_KEY with
  | some thread_id =>
    if thread_id ≠ "" then (⟨some thread_id⟩, acc) else (⟨Option.none⟩, acc)
  | Option.none => (⟨Option.none⟩, acc)

/-- data_agent/executor.py lines 99-109: `_store_thread_id`.  Does nothing
unless the thread's `service_thread_id` is truthy; then reads the key and
returns if a truthy value is already stored (`KeyError` is passed over);
otherwise writes the thread identifier. -/
def store_thread_id (st : SharedState) (thread : AgentThread) :
    SharedState × List StateAccess :=
  match thread.service_thread_id with
  | some tid =>
    if tid ≠ "" then
      match get_shared_state st FOUNDRY_THREAD_ID_KEY with
      | some existing =>
        if existing ≠ "" then
          (st, [StateAccess.read FOUNDRY_THREAD_ID_KEY])
        else
          (set_shared_state st FOUNDRY_THREAD_ID_KEY tid,
           [StateAccess.read FOUNDRY_THREAD_ID_KEY,
            StateAccess.write FOUNDRY_THREAD_ID_KEY tid])
      | Option.none =>
        (set_shared_state st FOUNDRY_THREAD_ID_KEY tid,
         [StateAccess.read FOUNDRY_THREAD_ID_KEY,
          StateAccess.write FOUNDRY_THREAD_ID_KEY tid])
    else (st, [])
  | Option.none => (st, [])

/-- data_agent/executor.py lines 146: the `except (ValueError,
RuntimeError, OSError)` clause — whether an exception class is caught. -/
def caught (e : PyExc) : Bool :=
  e.cls = "ValueError" || e.cls = "RuntimeError" || e.cls = "OSError"

/-- data_agent/executor.py lines 111-154: the `handle_question` handler.
`agentRun` models `self.agent.run(question, thread=thread)`: it may raise,
and on success yields the agent response (of opaque type `α`) together
with the thread afterwards (the service may have assigned its
`service_thread_id` during the run).  `parse` models
`self._parse_agent_response`.  The message is sent after the
`try`/`except`, so a caught exception still sends a response with empty
`sql_query` and `error = str(e)`; an uncaught exception propagates and
nothing is sent. -/
def handle_question {α : Type} (st : SharedState) (question : String)
    (agentRun : AgentThread → String → Except PyExc (α × AgentThread))
    (parse : α → NL2SQLResponse) : HandlerOutcome NL2SQLResponse :=
  let (thread, acc1) := get_or_create_thread st
  match agentRun thread question with
  | .ok (response, thread_after) =>
    let (st2, acc2) := store_thread_id st thread_after
    { state := st2, accesses := acc1 ++ acc2,
      sent := some (parse response), raised := Option.none }
  | .error e =>
    if caught e then
      { state := st, accesses := acc1,
        sent := some { sql_query := "", error := some e.msg },
        raised := Option.none }
    else
      { state := st, accesses := acc1, sent := Option.none, raised := some e }

end NL2SQLAgentExecutor

/-- Embeds `agent_framework.Role`, as used by the handlers. -/
inductive Role : Type where
  | user : Role
  | assistant : Role
  | system : Role
  | tool : Role
deriving DecidableEq, Repr

/-- Embeds `agent_framework.ChatMessage`, as used by the handlers: a role and a
text.  A Python `None` text is modelled as `""`: in both handlers below a
`None` text and an empty text behave identically (both are falsy and the
text is only forwarded when truthy in `handle_user_messages`, or defaulted
with `or ""` in `handle_chat_message`). -/
structure ChatMessage : Type where
  role : Role
  text : String
deriving DecidableEq, Repr

namespace ChatAgentExecutor

/-- chat_agent/executor.py line 60: the default `executor_id`. -/
def default_id : String := "chat"

/-- chat_agent/executor.py lines 79-96: `_get_or_create_thread`, identical
to the NL2SQL executor's version. -/
def get_or_create_thread (st : SharedState) : AgentThread × List StateAccess :=
  let acc := [StateAccess.read FOUNDRY_THREAD_ID_KEY]
  match get_shared_state st FOUNDRY_THREAD_ID_KEY with
  | some thread_id =>
    if thread_id ≠ "" then (⟨some thread_id⟩, acc) else (⟨Option.none⟩, acc)
  | Option.none => (⟨Option.none⟩, acc)

/-- chat_agent/executor.py lines 98-108: `_store_thread_id`, identical to
the NL2SQL executor's version. -/
def store_thread_id (st : SharedState) (thread : AgentThread) :
    SharedState × List StateAccess :=
  match thread.service_thread_id with
  | some tid =>
    if tid ≠ "" then
      match get_shared_state st FOUNDRY_THREAD_ID_KEY with
      | some existing =>
        if existing ≠ "" then
          (st, [StateAccess.read FOUNDRY_THREAD_ID_KEY])
        else
          (set_shared_state st FOUNDRY_THREAD_ID_KEY tid,
           [StateAccess.read FOUNDRY_THREAD_ID_KEY,
            StateAccess.write FOUNDRY_THREAD_ID_KEY tid])
      | Option.none =>
        (set_shared_state st FOUNDRY_THREAD_ID_KEY tid,
         [StateAccess.read FOUNDRY_THREAD_ID_KEY,
          StateAccess.write FOUNDRY_THREAD_ID_KEY tid])
    else (st, [])
  | Option.none => (st, [])

/-- chat_agent/executor.py lines 110-127: `handle_chat_message` forwards
`message.text or ""` downstream, touching no shared state. -/
def handle_chat_message (st : SharedState) (message : ChatMessage) :
    HandlerOutcome String :=
  { state := st, accesses := [], sent := some message.text, raised := Option.none }

/-- chat_agent/executor.py lines 143-147: the loop over
`reversed(messages)` picking the first message with role `USER` and truthy
text, defaulting to `""`.  This function receives the already-reversed
list. -/
def last_user_text : List ChatMessage → String
  | [] => ""
  | msg :: rest =>
    if msg.role = Role.user ∧ msg.text ≠ "" then msg.text else last_user_text rest

/-- chat_agent/executor.py lines 129-152: `handle_user_messages` forwards
the text of the most recent user message (or `""`), touching no shared
state. -/
def handle_user_messages (st : SharedState) (messages : List ChatMessage) :
    HandlerOutcome String :=
  { state := st, accesses := [],
    sent := some (last_user_text messages.reverse), raised := Option.none }

/-- chat_agent/executor.py lines 254: `str(row.get(col, ""))` — the cell
under `col`, stringified by `pyStr` (Python `str()`), or `""` when the
column is missing from the row dict. -/
def row_get_str (pyStr : PyValue → String) : Row → String → String
  | [], _ => ""
  | (k, v) :: rest, col => if k = col then pyStr v else row_get_str pyStr rest col

/-- chat_agent/executor.py lines 200-240: `_build_render_prompt`.
`dumps` models `json.dumps(sample_rows, indent=2, default=str)` and
`fmt2` models the `:.2f` float formatting — both Python-library
behaviour. -/
def build_render_prompt (dumps : List Row → String) (fmt2 : Rat → String)
    (response : NL2SQLResponse) : String :=
  match response.error with
  | some err =>
    "Please help the user understand this error from the data query:\n\n" ++
    "Error: " ++ err ++ "\n\n" ++
    "SQL Query attempted: " ++
    (if response.sql_query ≠ "" then response.sql_query else "None") ++ "\n\n" ++
    "Provide a helpful explanation of what went wrong and suggest how they might rephrase their question."
  | Option.none =>
    let data_preview :=
      if response.sql_response ≠ [] then dumps (response.sql_response.take 10) else ""
    let cache_info :=
      if response.used_cached_query then
        "This used a pre-tested cached query with confidence score: " ++
          fmt2 response.confidence_score
      else
        "This query was generated for this specific question."
    "Please present these data query results to the user in a clear, well-formatted way:\n\n" ++
    "**Query Results Summary:**\n" ++
    "- Total rows returned: " ++ toString response.row_count ++ "\n" ++
    "- Columns: " ++ String.intercalate ", " response.columns ++ "\n" ++
    "- " ++ cache_info ++ "\n\n" ++
    "**SQL Query Used:**\n" ++
    "```sql\n" ++ response.sql_query ++ "\n```\n\n" ++
    "**Data (sample of up to 10 rows):**\n" ++
    "```json\n" ++ data_preview ++ "\n```\n\n" ++
    "Format this nicely with a markdown table and helpful context. If the data is empty, explain that no matching records were found."

/-- chat_agent/executor.py lines 242-260: `_fallback_render`. -/
def fallback_render (pyStr : PyValue → String) (response : NL2SQLResponse) : String :=
  match response.error with
  | some err => "**Error:** " ++ err
  | Option.none =>
    let header := ["**Query Results** (" ++ toString response.row_count ++ " rows)\n"]
    let tableLines :=
      if response.columns ≠ [] ∧ response.sql_response ≠ [] then
        ["| " ++ String.intercalate " | " response.columns ++ " |",
         "| " ++ String.intercalate " | " (List.replicate response.columns.length "---") ++ " |"] ++
        (response.sql_response.take 10).map (fun row =>
          "| " ++ String.intercalate " | "
            (response.columns.map (row_get_str pyStr row)) ++ " |")
      else []
    let queryLines :=
      if response.sql_query ≠ "" then
        ["\n<details><summary>SQL Query</summary>\n\n```sql\n" ++
          response.sql_query ++ "\n```\n</details>"]
      else []
    String.intercalate "\n" (header ++ tableLines ++ queryLines)

/-- The dict yielded by `handle_nl2sql_response` (before `json.dumps`). -/
structure ChatOutput : Type where
  text : String
  thread_id : Option String
deriving DecidableEq, Repr

/-- chat_agent/executor.py lines 154-198: `handle_nl2sql_response`.
The incoming JSON has already been validated back into an
`NL2SQLResponse` (`model_validate_json` of the `model_dump_json` sent by
the NL2SQL executor round-trips).  `agentRun` models
`self.agent.run(render_prompt, thread=thread)`, yielding the response
text (`""` for a falsy text) and the thread afterwards; this handler has
no `try`/`except`, so an exception from the run propagates and nothing is
yielded. -/
def handle_nl2sql_response (st : SharedState) (response : NL2SQLResponse)
    (agentRun : String → AgentThread → Except PyExc (String × AgentThread))
    (dumps : List Row → String) (fmt2 : Rat → String)
    (pyStr : PyValue → String) : HandlerOutcome ChatOutput :=
  let render_prompt := build_render_prompt dumps fmt2 response
  let (thread, acc1) := get_or_create_thread st
  match agentRun render_prompt thread with
  | .error e =>
    { state := st, accesses := acc1, sent := Option.none, raised := some e }
  | .ok (text, thread_after) =>
    let (st2, acc2) := store_thread_id st thread_after
    let tid0 := thread_after.service_thread_id
    let falsy : Bool := match tid0 with
      | some t => t = ""
      | Option.none => true
    let foundry_thread_id :=
      if falsy then
        match get_shared_state st2 FOUNDRY_THREAD_ID_KEY with
        | some v => some v
        | Option.none => tid0
      else tid0
    let acc3 : List StateAccess :=
      if falsy then [StateAccess.read FOUNDRY_THREAD_ID_KEY] else []
    let final_text := if text ≠ "" then text else fallback_render pyStr response
    { state := st2, accesses := acc1 ++ acc2 ++ acc3,
      sent := some { text := final_text, thread_id := foundry_thread_id },
      raised := Option.none }

end ChatAgentExecutor

namespace NL2SQLAgentExecutor

/-- data_agent/executor.py line 60: the default `executor_id`. -/
def default_id : String := "nl2sql"

end NL2SQLAgentExecutor

/-! ## Workflow construction (workflow/builder.py lines 21-53) -/

/-- Modelled from the spec: the third-party `agent_framework`
workflow-builder API is not part of this repository; per the spec the
workflow is "a directed graph of agents/executors with message-passing
edges" "built by calling a third-party workflow-builder API".  The
builder is modelled as accumulating the directed edges and the start
executor passed to it, with executors identified by their ids. -/
structure WorkflowBuilder : Type where
  edges : List (String × String)
  start_executor : Option String
deriving DecidableEq, Repr

/-- Embeds `WorkflowBuilder.add_edge(src, dst)`: appends one directed edge. -/
def WorkflowBuilder.add_edge (b : WorkflowBuilder) (src dst : String) :
    WorkflowBuilder :=
  { b with edges := b.edges ++ [(src, dst)] }

/-- Embeds `WorkflowBuilder.set_start_executor(e)`. -/
def WorkflowBuilder.set_start_executor (b : WorkflowBuilder) (e : String) :
    WorkflowBuilder :=
  { b with start_executor := some e }

/-- The built workflow: its executor nodes, directed edges, and start
executor. -/
structure Workflow : Type where
  executors : List String
  edges : List (String × String)
  start_executor : Option String
deriving DecidableEq, Repr

/-- The executor nodes of an edge list, in first-appearance order, without
duplicates. -/
def nodesOf (edges : List (String × String)) : List String :=
  edges.foldl
    (fun acc e =>
      let acc1 := if acc.contains e.1 then acc else acc ++ [e.1]
      if acc1.contains e.2 then acc1 else acc1 ++ [e.2])
    []

/-- Embeds `WorkflowBuilder.build()`: the workflow over the accumulated edges. -/
def WorkflowBuilder.build (b : WorkflowBuilder) : Workflow :=
  { executors := nodesOf b.edges, edges := b.edges,
    start_executor := b.start_executor }

/-- workflow/builder.py lines 21-53: `build_data_agent_workflow`.  The two
executors are constructed with their default ids (`"chat"`, `"nl2sql"`),
the edges chat → nl2sql and nl2sql → chat are added, the chat executor is
set as start, and the pair `(workflow, chat_executor)` is returned. -/
def build_data_agent_workflow : Workflow × String :=
  let chat_executor := ChatAgentExecutor.default_id
  let nl2sql_executor := NL2SQLAgentExecutor.default_id
  let workflow :=
    ((((WorkflowBuilder.mk [] Option.none).add_edge chat_executor nl2sql_executor).add_edge
        nl2sql_executor chat_executor).set_start_executor chat_executor).build
  (workflow, chat_executor)

/-! ## Auxiliary predicates used by the theorem statements -/

/-- A truthy (non-empty) identifier is stored under
`FOUNDRY_THREAD_ID_KEY`: the condition under which the Python
`_store_thread_id` returns early. -/
def storedTruthy (st : SharedState) : Bool :=
  match get_shared_state st FOUNDRY_THREAD_ID_KEY with
  | some v => v ≠ ""
  | Option.none => false

/-- A message with role `USER` and a truthy text — the selection predicate
of `handle_user_messages`. -/
def is_user_with_text (m : ChatMessage) : Bool :=
  decide (m.role = Role.user ∧ m.text ≠ "")

/-! ## Theorems -/

/-- C4: `build_data_agent_workflow` constructs a workflow with exactly the
two executor nodes `"chat"` (the render executor) and `"nl2sql"` (the
query executor), exactly the two directed edges chat → nl2sql and
nl2sql → chat, and the chat executor as start node. -/
theorem build_data_agent_workflow_graph :
    build_data_agent_workflow.1.executors =
      [ChatAgentExecutor.default_id, NL2SQLAgentExecutor.default_id] ∧
    build_data_agent_workflow.1.edges =
      [(ChatAgentExecutor.default_id, NL2SQLAgentExecutor.default_id),
       (NL2SQLAgentExecutor.default_id, ChatAgentExecutor.default_id)] ∧
    build_data_agent_workflow.1.start_executor = some ChatAgentExecutor.default_id ∧
    build_data_agent_workflow.2 = ChatAgentExecutor.default_id :=
  ⟨rfl, rfl, rfl, rfl⟩

/-- C2: on the result list returned by the underlying search,
`search_cached_queries` reports a high-confidence match exactly when the
list is non-empty and its first result's score reaches the threshold;
`best_match` is the first result exactly when the threshold is met, and
`all_matches` is the whole list. -/
theorem search_cached_queries_confidence_gate (threshold : Rat)
    (results : List SearchMatch) :
    ((search_cached_queries threshold (.ok results)).has_high_confidence_match = true ↔
      ∃ b l, results = b :: l ∧ threshold ≤ b.score) ∧
    ((search_cached_queries threshold (.ok results)).has_high_confidence_match = true →
      (search_cached_queries threshold (.ok results)).best_match = results.head?) ∧
    ((search_cached_queries threshold (.ok results)).has_high_confidence_match = false →
      (search_cached_queries threshold (.ok results)).best_match = Option.none) ∧
    (search_cached_queries threshold (.ok results)).all_matches = results := by
  cases results with
  | nil => simp [search_cached_queries]
  | cons b l =>
    by_cases h : threshold ≤ b.score
    · simp [search_cached_queries, h]
    · simp [search_cached_queries, h]

/-- Witness for C2 at a concrete threshold and result list: the score
`4/5` clears the threshold `1/2`, so the first result is returned as
`best_match`. -/
theorem search_cached_queries_confidence_gate_witness :
    (search_cached_queries (1 / 2)
        (.ok [⟨"q", "SELECT 1", "r", 4 / 5⟩])).best_match =
      some ⟨"q", "SELECT 1", "r", 4 / 5⟩ := by
  have h := search_cached_queries_confidence_gate (1 / 2) [⟨"q", "SELECT 1", "r", 4 / 5⟩]
  have hh : (search_cached_queries (1 / 2)
      (.ok [⟨"q", "SELECT 1", "r", 4 / 5⟩])).has_high_confidence_match = true := by
    exact h.1.mpr ⟨_, _, rfl, by norm_num⟩
  simpa using h.2.1 hh

/-- C1: a query failing the read-only validation (stripped, uppercased
text starting with `SELECT`, none of the nine blocked keywords as a
substring) makes `execute_sql` return a failure dictionary — `success`
false, error message set, empty `columns` and `rows`, `row_count` zero —
whose value is independent of the database environment (no connection is
attempted); a query passing both checks proceeds to the `try` block
`runQuery`. -/
theorem execute_sql_select_only_gate (env : SqlEnv) (query : String) :
    (passes_checks query = false →
      (∀ env2 : SqlEnv, execute_sql env2 query = execute_sql env query) ∧
      lookupKey (execute_sql env query) "success" = some (RVal.bool false) ∧
      (∃ msg, lookupKey (execute_sql env query) "error" = some (RVal.str msg)) ∧
      lookupKey (execute_sql env query) "columns" = some (RVal.strList []) ∧
      lookupKey (execute_sql env query) "rows" = some (RVal.rowList []) ∧
      lookupKey (execute_sql env query) "row_count" = some (RVal.nat 0)) ∧
    (passes_checks query = true → execute_sql env query = runQuery env query) := by
  cases hs : startsWithChars (upperChars (stripChars query.data)) "SELECT".data with
  | false =>
    have hx : ∀ env2 : SqlEnv, execute_sql env2 query =
        sqlFailure "Only SELECT queries are allowed. Query must start with SELECT." := by
      intro env2
      simp [execute_sql, hs]
    refine ⟨fun _ => ⟨fun env2 => by rw [hx env2, hx env], ?_, ?_, ?_, ?_, ?_⟩,
      fun ht => by simp [passes_checks, hs] at ht⟩
    all_goals rw [hx env]
    · rfl
    · exact ⟨_, rfl⟩
    · rfl
    · rfl
    · rfl
  | true =>
    cases hf : findForbidden (upperChars (stripChars query.data)) with
    | none =>
      refine ⟨fun hfail => ?_, fun _ => ?_⟩
      · simp [passes_checks, hs, hf] at hfail
      · simp [execute_sql, hs, hf]
    | some k =>
      have hx : ∀ env2 : SqlEnv, execute_sql env2 query =
          sqlFailure ("Query contains forbidden keyword: " ++ k ++
            ". Only read-only SELECT queries are allowed.") := by
        intro env2
        simp [execute_sql, hs, hf]
      refine ⟨fun _ => ⟨fun env2 => by rw [hx env2, hx env], ?_, ?_, ?_, ?_, ?_⟩,
        fun ht => by simp [passes_checks, hs, hf] at ht⟩
      all_goals rw [hx env]
      · rfl
      · exact ⟨_, rfl⟩
      · rfl
      · rfl
      · rfl

/-- Witness for C1 at a concrete blocked query: `"DROP TABLE Users"` fails
the validation and yields `success = false`. -/
theorem execute_sql_select_only_gate_witness :
    passes_checks "DROP TABLE Users" = false ∧
    lookupKey (execute_sql ⟨"srv", fun _ => .error "boom"⟩ "DROP TABLE Users")
      "success" = some (RVal.bool false) := by
  have hp : passes_checks "DROP TABLE Users" = false := by decide
  exact ⟨hp,
    ((execute_sql_select_only_gate ⟨"srv", fun _ => .error "boom"⟩
      "DROP TABLE Users").1 hp).2.1⟩

/-- C3: neither tool propagates an exception.  An exception raised inside
`execute_sql`'s `try` block (modelled by the database interaction yielding
`.error e`; reached when the checks pass and the server variable is set)
produces the failure dictionary with `error = str(e)` and empty data, and
an exception raised inside `search_cached_queries` produces the result
with `has_high_confidence_match = false`, no best match, no matches, and
`error = str(e)`. -/
theorem tools_never_propagate_exceptions :
    (∀ (env : SqlEnv) (query : String) (e : String),
      passes_checks query = true → env.azure_sql_server ≠ "" →
      env.db query = .error e →
        execute_sql env query =
          [("success", RVal.bool false), ("error", RVal.str e),
           ("columns", RVal.strList []), ("rows", RVal.rowList []),
           ("row_count", RVal.nat 0)]) ∧
    (∀ (threshold : Rat) (e : String),
      search_cached_queries threshold (.error e) =
        { has_high_confidence_match := false, best_match := Option.none,
          all_matches := [], message := Option.none, threshold := Option.none,
          error := some e }) := by
  constructor
  · intro env query e hp hs hdb
    rw [passes_checks] at hp
    have h1 : startsWithChars (upperChars (stripChars query.data)) "SELECT".data = true :=
      (Bool.and_eq_true _ _).mp hp |>.1
    have h2 : findForbidden (upperChars (stripChars query.data)) = Option.none :=
      Option.isNone_iff_eq_none.mp ((Bool.and_eq_true _ _).mp hp |>.2)
    simp [execute_sql, runQuery, h1, h2, hs, hdb, sqlFailure]
  · intro threshold e
    rfl

/-- Witness for C3 at a concrete passing query whose execution raises:
the exception text comes back in the `error` field. -/
theorem tools_never_propagate_exceptions_witness :
    execute_sql ⟨"srv", fun _ => .error "login failed"⟩ "SELECT 1" =
      [("success", RVal.bool false), ("error", RVal.str "login failed"),
       ("columns", RVal.strList []), ("rows", RVal.rowList []),
       ("row_count", RVal.nat 0)] ∧
    search_cached_queries (3 / 4) (.error "search down") =
      { has_high_confidence_match := false, best_match := Option.none,
        all_matches := [], message := Option.none, threshold := Option.none,
        error := some "search down" } :=
  ⟨tools_never_propagate_exceptions.1 ⟨"srv", fun _ => .error "login failed"⟩
      "SELECT 1" "login failed" (by decide) (by decide) rfl,
    tools_never_propagate_exceptions.2 (3 / 4) "search down"⟩

/-- The conversion of one cell always yields a JSON-safe value. -/
theorem convertValue_jsonSafe (v : PyValue) : (convertValue v).isJsonSafe = true := by
  cases v <;> rfl

/-- Every value in a row dict built by the conversion loop is JSON-safe. -/
theorem buildRow_jsonSafe (cs : List String) :
    ∀ (vs : List PyValue) (row : Row), buildRow cs vs = some row →
      ∀ p ∈ row, PyValue.isJsonSafe p.2 = true := by
  induction cs with
  | nil =>
    intro vs row h p hp
    simp [buildRow] at h
    subst h
    simp at hp
  | cons c cs ih =>
    intro vs row h p hp
    cases vs with
    | nil => simp [buildRow] at h
    | cons v vs =>
      simp [buildRow] at h
      obtain ⟨rest, hrest, hrow⟩ := h
      subst hrow
      rcases List.mem_cons.mp hp with hp | hp
      · subst hp
        exact convertValue_jsonSafe v
      · exact ih vs rest hrest p hp

/-- Every value in every row dict built by the conversion loop is
JSON-safe. -/
theorem buildRows_jsonSafe (columns : List String) :
    ∀ (raws : List (List PyValue)) (rs : List Row), buildRows columns raws = some rs →
      ∀ row ∈ rs, ∀ p ∈ row, PyValue.isJsonSafe p.2 = true := by
  intro raws
  induction raws with
  | nil =>
    intro rs h row hrow
    simp [buildRows] at h
    subst h
    simp at hrow
  | cons r raws ih =>
    intro rs h row hrow
    rw [buildRows] at h
    cases h1 : buildRow columns r with
    | none => rw [h1] at h; exact absurd h (by simp)
    | some row1 =>
      cases h2 : buildRows columns raws with
      | none => rw [h1, h2] at h; exact absurd h (by simp)
      | some rows1 =>
        rw [h1, h2] at h
        simp at h
        subst h
        rcases List.mem_cons.mp hrow with hrow | hrow
        · subst hrow
          exact buildRow_jsonSafe columns r row h1
        · exact ih rows1 h2 row hrow

/-- C9: every dictionary returned by `execute_sql` has exactly the five
keys `success`, `error`, `columns`, `rows`, `row_count`; `success` is true
exactly when `error` is `None`; `row_count` is the length of `rows`; and
on success every value in every row dictionary is JSON-safe (`None`, int,
float, str or bool — anything else was stringified). -/
theorem execute_sql_result_invariants (env : SqlEnv) (query : String) :
    ∃ rs : List Row,
      ((execute_sql env query).map Prod.fst).Perm
        ["success", "error", "columns", "rows", "row_count"] ∧
      lookupKey (execute_sql env query) "rows" = some (RVal.rowList rs) ∧
      lookupKey (execute_sql env query) "row_count" = some (RVal.nat rs.length) ∧
      (lookupKey (execute_sql env query) "success" = some (RVal.bool true) ↔
        lookupKey (execute_sql env query) "error" = some RVal.noneVal) ∧
      (lookupKey (execute_sql env query) "success" = some (RVal.bool true) →
        ∀ row ∈ rs, ∀ p ∈ row, PyValue.isJsonSafe p.2 = true) := by
  have hfail : ∀ msg, execute_sql env query = sqlFailure msg →
      ∃ rs : List Row,
        ((execute_sql env query).map Prod.fst).Perm
          ["success", "error", "columns", "rows", "row_count"] ∧
        lookupKey (execute_sql env query) "rows" = some (RVal.rowList rs) ∧
        lookupKey (execute_sql env query) "row_count" = some (RVal.nat rs.length) ∧
        (lookupKey (execute_sql env query) "success" = some (RVal.bool true) ↔
          lookupKey (execute_sql env query) "error" = some RVal.noneVal) ∧
        (lookupKey (execute_sql env query) "success" = some (RVal.bool true) →
          ∀ row ∈ rs, ∀ p ∈ row, PyValue.isJsonSafe p.2 = true) := by
    intro msg hmsg
    refine ⟨[], ?_, ?_, ?_, ?_, ?_⟩ <;> rw [hmsg]
    · exact List.Perm.refl _
    · rfl
    · rfl
    · constructor
      · intro h
        exact absurd h (by simp [sqlFailure, lookupKey])
      · intro h
        exact absurd h (by simp [sqlFailure, lookupKey])
    · intro h
      exact absurd h (by simp [sqlFailure, lookupKey])
  cases hs : startsWithChars (upperChars (stripChars query.data)) "SELECT".data with
  | false =>
    exact hfail "Only SELECT queries are allowed. Query must start with SELECT."
      (by simp [execute_sql, hs])
  | true =>
    cases hf : findForbidden (upperChars (stripChars query.data)) with
    | some k =>
      exact hfail ("Query contains forbidden keyword: " ++ k ++
        ". Only read-only SELECT queries are allowed.") (by simp [execute_sql, hs, hf])
    | none =>
      have hrun : execute_sql env query = runQuery env query := by
        simp [execute_sql, hs, hf]
      by_cases hsrv : env.azure_sql_server = ""
      · exact hfail "AZURE_SQL_SERVER environment variable is required"
          (by rw [hrun]; simp [runQuery, hsrv])
      · cases hdb : env.db query with
        | error e => exact hfail e (by rw [hrun]; simp [runQuery, hsrv, hdb])
        | ok res =>
          obtain ⟨columns, raw_rows⟩ := res
          cases hbr : buildRows columns raw_rows with
          | none =>
            exact hfail "tuple index out of range"
              (by rw [hrun]; simp [runQuery, hsrv, hdb, hbr])
          | some rows =>
            have hok : execute_sql env query =
                [("success", RVal.bool true), ("columns", RVal.strList columns),
                 ("rows", RVal.rowList rows), ("row_count", RVal.nat rows.length),
                 ("error", RVal.noneVal)] := by
              rw [hrun]
              simp [runQuery, hsrv, hdb, hbr]
            refine ⟨rows, ?_, ?_, ?_, ?_, ?_⟩ <;> rw [hok]
            · exact (by decide :
                (["success", "columns", "rows", "row_count", "error"] : List String).Perm
                  ["success", "error", "columns", "rows", "row_count"])
            · rfl
            · rfl
            · simp [lookupKey]
            · intro _ row hrow p hp
              exact buildRows_jsonSafe columns raw_rows rows hbr row hrow p hp

/-- Witness for C9 at a concrete environment whose query returns one row
holding a non-JSON value: on success, `error` is `None`. -/
theorem execute_sql_result_invariants_witness :
    lookupKey
      (execute_sql ⟨"srv", fun _ => .ok (["A"], [[PyValue.other "2021-01-01"]])⟩
        "SELECT A FROM T") "error" = some RVal.noneVal := by
  obtain ⟨rs, -, -, -, hiff, -⟩ :=
    execute_sql_result_invariants
      ⟨"srv", fun _ => .ok (["A"], [[PyValue.other "2021-01-01"]])⟩ "SELECT A FROM T"
  exact hiff.mp (by decide)

/-- The two executors' `_get_or_create_thread` methods are character-for-
character identical in the source; so are their embeddings. -/
theorem get_or_create_thread_defs_eq :
    ChatAgentExecutor.get_or_create_thread = NL2SQLAgentExecutor.get_or_create_thread :=
  rfl

/-- The two executors' `_store_thread_id` methods are character-for-
character identical in the source; so are their embeddings. -/
theorem store_thread_id_defs_eq :
    ChatAgentExecutor.store_thread_id = NL2SQLAgentExecutor.store_thread_id :=
  rfl

/-- C7: when the shared state holds a (non-empty) thread identifier under
`"foundry_thread_id"`, `_get_or_create_thread` in each executor returns a
thread whose `service_thread_id` is that identifier; when nothing is
stored it returns a fresh thread with no identifier set. -/
theorem get_or_create_thread_continues_conversation (st : SharedState) :
    (∀ tid, get_shared_state st FOUNDRY_THREAD_ID_KEY = some tid → tid ≠ "" →
      (ChatAgentExecutor.get_or_create_thread st).1 = ⟨some tid⟩ ∧
      (NL2SQLAgentExecutor.get_or_create_thread st).1 = ⟨some tid⟩) ∧
    (get_shared_state st FOUNDRY_THREAD_ID_KEY = Option.none →
      (ChatAgentExecutor.get_or_create_thread st).1 = ⟨Option.none⟩ ∧
      (NL2SQLAgentExecutor.get_or_create_thread st).1 = ⟨Option.none⟩) := by
  rw [get_or_create_thread_defs_eq]
  constructor
  · intro tid h hne
    refine ⟨?_, ?_⟩ <;> simp [NL2SQLAgentExecutor.get_or_create_thread, h, hne]
  · intro h
    refine ⟨?_, ?_⟩ <;> simp [NL2SQLAgentExecutor.get_or_create_thread, h]

/-- Witness for C7: with `"t1"` stored, both executors return a thread
continuing `"t1"`. -/
theorem get_or_create_thread_continues_conversation_witness :
    (ChatAgentExecutor.get_or_create_thread [("foundry_thread_id", "t1")]).1 =
      ⟨some "t1"⟩ :=
  ((get_or_create_thread_continues_conversation [("foundry_thread_id", "t1")]).1
    "t1" (by decide) (by decide)).1

/-- C8: `_store_thread_id` in each executor writes the key only when the
thread carries a non-empty `service_thread_id` and no non-empty value is
stored yet; when a non-empty value is already stored it leaves the state
unchanged; and a performed write stores the (non-empty) thread id, after
which the stored value is truthy — so later calls can never overwrite
it. -/
theorem store_thread_id_write_once (st : SharedState) (thread : AgentThread) :
    ((NL2SQLAgentExecutor.store_thread_id st thread).2.any StateAccess.isWrite = true ↔
      ((∃ tid, thread.service_thread_id = some tid ∧ tid ≠ "") ∧
        storedTruthy st = false)) ∧
    (storedTruthy st = true →
      (NL2SQLAgentExecutor.store_thread_id st thread).1 = st ∧
      (ChatAgentExecutor.store_thread_id st thread).1 = st) ∧
    (∀ tid, thread.service_thread_id = some tid → tid ≠ "" →
      storedTruthy st = false →
      (NL2SQLAgentExecutor.store_thread_id st thread).1 =
        set_shared_state st FOUNDRY_THREAD_ID_KEY tid ∧
      storedTruthy (NL2SQLAgentExecutor.store_thread_id st thread).1 = true) ∧
    (ChatAgentExecutor.store_thread_id st thread =
      NL2SQLAgentExecutor.store_thread_id st thread) := by
  rw [store_thread_id_defs_eq]
  refine ⟨?_, fun htr => ⟨?_, ?_⟩, ?_, rfl⟩
  · cases hst : thread.service_thread_id with
    | none => simp [NL2SQLAgentExecutor.store_thread_id, hst]
    | some tid =>
      by_cases h2 : tid = ""
      · subst h2
        simp [NL2SQLAgentExecutor.store_thread_id, hst]
      · cases hex : get_shared_state st FOUNDRY_THREAD_ID_KEY with
        | none =>
          simp [NL2SQLAgentExecutor.store_thread_id, hst, h2, hex,
            StateAccess.isWrite, storedTruthy]
        | some ex =>
          by_cases h3 : ex = ""
          · subst h3
            simp [NL2SQLAgentExecutor.store_thread_id, hst, h2, hex,
              StateAccess.isWrite, storedTruthy]
          · simp [NL2SQLAgentExecutor.store_thread_id, hst, h2, hex,
              StateAccess.isWrite, storedTruthy, h3]
  · cases hst : thread.service_thread_id with
    | none => simp [NL2SQLAgentExecutor.store_thread_id, hst]
    | some tid =>
      by_cases h2 : tid = ""
      · subst h2
        simp [NL2SQLAgentExecutor.store_thread_id, hst]
      · rw [storedTruthy] at htr
        cases hex : get_shared_state st FOUNDRY_THREAD_ID_KEY with
        | none => rw [hex] at htr; exact absurd htr (by simp)
        | some ex =>
          rw [hex] at htr
          simp at htr
          simp [NL2SQLAgentExecutor.store_thread_id, hst, h2, hex, htr]
  · cases hst : thread.service_thread_id with
    | none => simp [NL2SQLAgentExecutor.store_thread_id, hst]
    | some tid =>
      by_cases h2 : tid = ""
      · subst h2
        simp [NL2SQLAgentExecutor.store_thread_id, hst]
      · rw [storedTruthy] at htr
        cases hex : get_shared_state st FOUNDRY_THREAD_ID_KEY with
        | none => rw [hex] at htr; exact absurd htr (by simp)
        | some ex =>
          rw [hex] at htr
          simp at htr
          simp [NL2SQLAgentExecutor.store_thread_id, hst, h2, hex, htr]
  · intro tid hst h2 htr
    rw [storedTruthy] at htr
    cases hex : get_shared_state st FOUNDRY_THREAD_ID_KEY with
    | none =>
      constructor
      · simp [NL2SQLAgentExecutor.store_thread_id, hst, h2, hex]
      · simp [NL2SQLAgentExecutor.store_thread_id, hst, h2, hex,
          storedTruthy, set_shared_state, get_shared_state]
    | some ex =>
      rw [hex] at htr
      simp at htr
      subst htr
      constructor
      · simp [NL2SQLAgentExecutor.store_thread_id, hst, h2, hex]
      · simp [NL2SQLAgentExecutor.store_thread_id, hst, h2, hex,
          storedTruthy, set_shared_state, get_shared_state]

/-- Witness for C8: with `"t1"` already stored, storing a thread carrying
`"t2"` leaves the state unchanged. -/
theorem store_thread_id_write_once_witness :
    (NL2SQLAgentExecutor.store_thread_id [("foundry_thread_id", "t1")] ⟨some "t2"⟩).1 =
      [("foundry_thread_id", "t1")] :=
  ((store_thread_id_write_once [("foundry_thread_id", "t1")] ⟨some "t2"⟩).2.1
    (by decide)).1

/-- The method `_get_or_create_thread` performs exactly one shared-state access: a
read of `FOUNDRY_THREAD_ID_KEY`. -/
theorem get_or_create_thread_accesses (st : SharedState) :
    (NL2SQLAgentExecutor.get_or_create_thread st).2 =
      [StateAccess.read FOUNDRY_THREAD_ID_KEY] := by
  rcases h : get_shared_state st FOUNDRY_THREAD_ID_KEY with _ | tid
  · simp [NL2SQLAgentExecutor.get_or_create_thread, h]
  · by_cases h2 : tid = "" <;>
      simp [NL2SQLAgentExecutor.get_or_create_thread, h, h2]

/-- Every shared-state access performed by `_store_thread_id` touches
`FOUNDRY_THREAD_ID_KEY`. -/
theorem store_thread_id_accesses_key (st : SharedState) (thread : AgentThread) :
    ∀ a ∈ (NL2SQLAgentExecutor.store_thread_id st thread).2,
      a.key = FOUNDRY_THREAD_ID_KEY := by
  intro a ha
  rcases hst : thread.service_thread_id with _ | tid
  · simp [NL2SQLAgentExecutor.store_thread_id, hst] at ha
  · by_cases h2 : tid = ""
    · subst h2
      simp [NL2SQLAgentExecutor.store_thread_id, hst] at ha
    · rcases hex : get_shared_state st FOUNDRY_THREAD_ID_KEY with _ | ex
      · simp [NL2SQLAgentExecutor.store_thread_id, hst, h2, hex] at ha
        rcases ha with rfl | rfl <;> rfl
      · by_cases h3 : ex = ""
        · subst h3
          simp [NL2SQLAgentExecutor.store_thread_id, hst, h2, hex] at ha
          rcases ha with rfl | rfl <;> rfl
        · simp [NL2SQLAgentExecutor.store_thread_id, hst, h2, hex, h3] at ha
          subst ha
          rfl

/-- C5: across both executors, every shared-state read and write of every
handler uses the single key `"foundry_thread_id"`: the two
thread-managing handlers only ever access that key, and the two
message-forwarding handlers access no shared state at all. -/
theorem handlers_use_single_shared_state_key :
    ∀ {α : Type} (st : SharedState) (question : String)
      (agentRunN : AgentThread → String → Except PyExc (α × AgentThread))
      (parse : α → NL2SQLResponse) (response : NL2SQLResponse)
      (agentRunC : String → AgentThread → Except PyExc (String × AgentThread))
      (dumps : List Row → String) (fmt2 : Rat → String) (pyStr : PyValue → String)
      (message : ChatMessage) (messages : List ChatMessage),
      (∀ a ∈ (NL2SQLAgentExecutor.handle_question st question agentRunN parse).accesses,
        a.key = FOUNDRY_THREAD_ID_KEY) ∧
      (∀ a ∈ (ChatAgentExecutor.handle_nl2sql_response st response agentRunC
          dumps fmt2 pyStr).accesses,
        a.key = FOUNDRY_THREAD_ID_KEY) ∧
      (ChatAgentExecutor.handle_chat_message st message).accesses = [] ∧
      (ChatAgentExecutor.handle_user_messages st messages).accesses = [] := by
  intro α st question agentRunN parse response agentRunC dumps fmt2 pyStr message messages
  refine ⟨?_, ?_, rfl, rfl⟩
  · intro a ha
    rcases hg : NL2SQLAgentExecutor.get_or_create_thread st with ⟨thread, acc1⟩
    have hacc1 : acc1 = [StateAccess.read FOUNDRY_THREAD_ID_KEY] := by
      have := get_or_create_thread_accesses st
      rw [hg] at this
      exact this
    rw [NL2SQLAgentExecutor.handle_question, hg] at ha
    dsimp only at ha
    rcases hr : agentRunN thread question with e | ⟨resp, th2⟩
    · rw [hr] at ha
      dsimp only at ha
      cases hc : NL2SQLAgentExecutor.caught e with
      | true =>
        simp [hc, hacc1] at ha
        subst ha
        rfl
      | false =>
        simp [hc, hacc1] at ha
        subst ha
        rfl
    · rw [hr] at ha
      dsimp only at ha
      rcases hs2 : NL2SQLAgentExecutor.store_thread_id st th2 with ⟨st2, acc2⟩
      rw [hs2] at ha
      simp [hacc1] at ha
      rcases ha with rfl | ha
      · rfl
      · have := store_thread_id_accesses_key st th2
        rw [hs2] at this
        exact this a ha
  · intro a ha
    rcases hg : ChatAgentExecutor.get_or_create_thread st with ⟨thread, acc1⟩
    have hacc1 : acc1 = [StateAccess.read FOUNDRY_THREAD_ID_KEY] := by
      have := get_or_create_thread_accesses st
      rw [← get_or_create_thread_defs_eq, hg] at this
      exact this
    rw [ChatAgentExecutor.handle_nl2sql_response, hg] at ha
    dsimp only at ha
    rcases hr : agentRunC (ChatAgentExecutor.build_render_prompt dumps fmt2 response)
        thread with e | ⟨text, th2⟩
    · rw [hr] at ha
      dsimp only at ha
      simp [hacc1] at ha
      subst ha
      rfl
    · rw [hr] at ha
      dsimp only at ha
      rcases hs2 : ChatAgentExecutor.store_thread_id st th2 with ⟨st2, acc2⟩
      rw [hs2] at ha
      have hacc2 : ∀ b ∈ acc2, StateAccess.key b = FOUNDRY_THREAD_ID_KEY := by
        have := store_thread_id_accesses_key st th2
        rw [← store_thread_id_defs_eq, hs2] at this
        exact this
      rcases hsid : th2.service_thread_id with _ | t
      · simp [hsid, hacc1] at ha
        rcases ha with rfl | ha | rfl
        · rfl
        · exact hacc2 a ha
        · rfl
      · by_cases ht : t = ""
        · simp [hsid, ht, hacc1] at ha
          rcases ha with rfl | ha | rfl
          · rfl
          · exact hacc2 a ha
          · rfl
        · simp [hsid, ht, hacc1] at ha
          rcases ha with rfl | ha
          · rfl
          · exact hacc2 a ha

/-- Witness for C5 at concrete handler runs: the single access performed
by `handle_question` on an empty state reads `"foundry_thread_id"`. -/
theorem handlers_use_single_shared_state_key_witness :
    (StateAccess.read FOUNDRY_THREAD_ID_KEY).key = FOUNDRY_THREAD_ID_KEY :=
  (handlers_use_single_shared_state_key (α := Unit) [] "q"
      (fun _ _ => .ok ((), ⟨Option.none⟩)) (fun _ => {}) {}
      (fun _ _ => .ok ("", ⟨Option.none⟩)) (fun _ => "") (fun _ => "") (fun _ => "")
      ⟨Role.user, "hi"⟩ []).1
    (StateAccess.read FOUNDRY_THREAD_ID_KEY) (by decide)

/-- C6 counterexample: the claim says every error raised while
`handle_question` processes a question is caught and a response is still
sent downstream; but the `except` clause lists only `ValueError`,
`RuntimeError` and `OSError`, so an agent run raising a `KeyError`
propagates out of the handler and nothing is sent. -/
theorem handle_question_uncaught_error_counterexample :
    (NL2SQLAgentExecutor.handle_question (α := Unit) [] "How many orders last year?"
        (fun _ _ => .error ⟨"KeyError", "boom"⟩) (fun _ => {})).raised =
      some ⟨"KeyError", "boom"⟩ ∧
    (NL2SQLAgentExecutor.handle_question (α := Unit) [] "How many orders last year?"
        (fun _ _ => .error ⟨"KeyError", "boom"⟩) (fun _ => {})).sent = Option.none :=
  ⟨rfl, rfl⟩

/-- C6 (amended): an error of one of the listed classes (`ValueError`,
`RuntimeError`, `OSError`) raised while `handle_question` processes a
question is caught and stringified — the handler does not propagate it and
still sends an `NL2SQLResponse` with `sql_query = ""` and `error = str(e)`
downstream; an error of any other class propagates and nothing is sent. -/
theorem handle_question_catches_listed_errors :
    ∀ {α : Type} (st : SharedState) (question : String)
      (agentRun : AgentThread → String → Except PyExc (α × AgentThread))
      (parse : α → NL2SQLResponse) (e : PyExc),
      agentRun (NL2SQLAgentExecutor.get_or_create_thread st).1 question = .error e →
      ((NL2SQLAgentExecutor.caught e = true →
        (NL2SQLAgentExecutor.handle_question st question agentRun parse).raised =
          Option.none ∧
        (NL2SQLAgentExecutor.handle_question st question agentRun parse).sent =
          some { sql_query := "", error := some e.msg }) ∧
      (NL2SQLAgentExecutor.caught e = false →
        (NL2SQLAgentExecutor.handle_question st question agentRun parse).raised =
          some e ∧
        (NL2SQLAgentExecutor.handle_question st question agentRun parse).sent =
          Option.none)) := by
  intro α st question agentRun parse e hrun
  rcases hg : NL2SQLAgentExecutor.get_or_create_thread st with ⟨thread, acc1⟩
  rw [hg] at hrun
  dsimp only at hrun
  constructor
  · intro hc
    constructor <;>
      · rw [NL2SQLAgentExecutor.handle_question, hg]
        dsimp only
        rw [hrun]
        simp [hc]
  · intro hc
    constructor <;>
      · rw [NL2SQLAgentExecutor.handle_question, hg]
        dsimp only
        rw [hrun]
        simp [hc]

/-- Witness for C6 (amended) at a concrete `RuntimeError`: the handler
still sends a response carrying the stringified error. -/
theorem handle_question_catches_listed_errors_witness :
    (NL2SQLAgentExecutor.handle_question (α := Unit) [] "q"
        (fun _ _ => .error ⟨"RuntimeError", "kaboom"⟩) (fun _ => {})).sent =
      some { sql_query := "", error := some "kaboom" } :=
  ((handle_question_catches_listed_errors [] "q"
      (fun _ _ => .error ⟨"RuntimeError", "kaboom"⟩) (fun _ => {})
      ⟨"RuntimeError", "kaboom"⟩ rfl).1 (by decide)).2

/-- The reversed-loop text selection equals taking the first
filter-selected message of the reversed list. -/
theorem last_user_text_eq_head_filter (l : List ChatMessage) :
    ChatAgentExecutor.last_user_text l =
      (match (l.filter is_user_with_text).head? with
        | some m => m.text
        | Option.none => "") := by
  induction l with
  | nil => rfl
  | cons m rest ih =>
    by_cases h : m.role = Role.user ∧ m.text ≠ ""
    · simp [ChatAgentExecutor.last_user_text, is_user_with_text, h]
    · simp [ChatAgentExecutor.last_user_text, is_user_with_text, h, ih]

/-- C10: `handle_user_messages` forwards exactly the text of the most
recent message whose role is `USER` and whose text is non-empty — the
last element of the list filtered by that predicate — and the empty
string when no such message exists. -/
theorem handle_user_messages_forwards_latest_user_text
    (st : SharedState) (messages : List ChatMessage) :
    (ChatAgentExecutor.handle_user_messages st messages).sent =
      some (match (messages.filter is_user_with_text).getLast? with
        | some m => m.text
        | Option.none => "") := by
  have h1 : (ChatAgentExecutor.handle_user_messages st messages).sent =
      some (ChatAgentExecutor.last_user_text messages.reverse) := rfl
  rw [h1, last_user_text_eq_head_filter, List.filter_reverse, List.head?_reverse]

end DataAgent
